import Mathlib

/-!
Verification of `autostore` (src/autostore/models.py) against its
natural-language specification.

The data model and the insert-time hooks are embedded from
`src/autostore/models.py`.  The repository modules `calcn` (the
`Calculation` descriptor, `calculation_hash` and `hash_registry`) and
`qc` (structure normalization), as well as the `automol` geometry
digest, are not under `src/`; they are modelled from the spec and
marked as such in their doc comments.

Python floats are embedded as `Rat`, optional values as `Option`,
dicts as association lists, and exceptions as `Except`.
-/

/-- Modelled from the spec: the normalized geometry value consumed by the
core (symbols, coordinates, charge, spin).  In the source this is the
external `automol.Geometry` passed to `geom.geometry_hash`. -/
structure Geometry where
  symbols : List String
  coordinates : List (List Rat)
  charge : Int
  spin : Int
deriving Repr, DecidableEq

/-- Modelled from the spec: `geometry_hash(geometry) -> digest`, a
deterministic one-way digest over the canonical geometry form (in the
source this is `automol.geom.geometry_hash`, whose implementation is not
under `src/`).  Modelled as a deterministic encoding of the canonical
form: same canonical form gives the same digest. -/
def geometry_hash (g : Geometry) : String :=
  "geo:" ++ String.intercalate "," g.symbols ++ ";"
    ++ String.intercalate ";" (g.coordinates.map (fun xyz =>
        String.intercalate "," (xyz.map (fun x => toString x))))
    ++ ";" ++ toString g.charge ++ ";" ++ toString g.spin

/-- Embedded from `GeometryRow` (models.py lines 19-58): the geometry
table row.  `hash` is nullable and populated by the `before_insert`
event listener. -/
structure GeometryRow where
  id : Option Nat := none
  symbols : List String
  coordinates : List (List Rat)
  charge : Int := 0
  spin : Int := 0
  hash : Option String := none
deriving Repr, DecidableEq

/-- Embedded from the construction/validation of `GeometryRow`
(models.py lines 48-97).  The shape validator relating the coordinate
count to the symbol count is commented out in the source (lines 91-97),
so construction performs no shape check: every symbols/coordinates pair
is accepted.  `ShapeError` would be the error of the rejecting branch;
no branch produces it. -/
def GeometryRow.construct (symbols : List String)
    (coordinates : List (List Rat)) (charge : Int) (spin : Int) :
    Except String GeometryRow :=
  Except.ok { symbols := symbols, coordinates := coordinates,
              charge := charge, spin := spin }

/-- Embedded from `populate_geometry_hash` (models.py lines 115-124):
the listener body builds a `Geometry` from the row content and
unconditionally assigns its digest to the row hash. -/
def populate_geometry_hash (target : GeometryRow) : GeometryRow :=
  let geo : Geometry :=
    { symbols := target.symbols, coordinates := target.coordinates,
      charge := target.charge, spin := target.spin }
  { target with hash := some (geometry_hash geo) }

/-- ORM mapper events relevant to `GeometryRow` in the source. -/
inductive OrmEvent
  | before_insert
  | before_update
deriving Repr, DecidableEq

/-- Embedded from the `@event.listens_for(GeometryRow, "before_insert")`
registration (models.py line 115): the only listener on `GeometryRow`
is `populate_geometry_hash`, attached to `before_insert` alone (the
commented-out formula listener at lines 105-112 would also have listened
on `before_update`; it does not exist). -/
def geometry_listeners : List (OrmEvent × (GeometryRow → GeometryRow)) :=
  [(OrmEvent.before_insert, populate_geometry_hash)]

/-- Fire all registered listeners for one event on a row, in
registration order. -/
def fireGeometryEvent (e : OrmEvent) (row : GeometryRow) : GeometryRow :=
  (geometry_listeners.filter (fun p => decide (p.1 = e))).foldl
    (fun r p => p.2 r) row

/-- Inserting a geometry row: the ORM fires `before_insert` listeners
on the pending row. -/
def insertGeometry (row : GeometryRow) : GeometryRow :=
  fireGeometryEvent OrmEvent.before_insert row

/-- An update to a persisted geometry row: new values for the content
columns. -/
structure GeometryContentUpdate where
  symbols : List String
  coordinates : List (List Rat)
  charge : Int
  spin : Int
deriving Repr, DecidableEq

/-- Updating a persisted geometry row: the content columns are set and
the ORM fires `before_update` listeners (of which the source registers
none). -/
def updateGeometry (u : GeometryContentUpdate) (row : GeometryRow) :
    GeometryRow :=
  fireGeometryEvent OrmEvent.before_update
    { row with symbols := u.symbols, coordinates := u.coordinates,
               charge := u.charge, spin := u.spin }

/-- Embedded from the `dict[str, str | dict | None]` value type of the
`keywords` and `extras` columns (models.py lines 178-181, 198-201):
a string, a nested string-keyed mapping, or null. -/
inductive KeyValue
  | str : String → KeyValue
  | dict : List (String × KeyValue) → KeyValue
  | null : KeyValue
deriving Repr

/-- Modelled from the spec: the calculation descriptor of the `calcn`
module (not under `src/`), with the fields the spec lists in section 3
and that `CalculationRow.to_calculation` passes (models.py lines
208-226): identity-relevant fields plus the provenance fields
scratch_dir, wall_time, hostname, hostcpus, hostmem and extras. -/
structure Calculation where
  program : String
  method : String
  basis : Option String := none
  input : Option String := none
  keywords : List (String × KeyValue) := []
  cmdline_args : List String := []
  files : List (String × String) := []
  calctype : Option String := none
  program_version : Option String := none
  scratch_dir : Option String := none
  wall_time : Option Rat := none
  hostname : Option String := none
  hostcpus : Option Int := none
  hostmem : Option Int := none
  extras : List (String × KeyValue) := []
deriving Repr

/-- Modelled from the spec: the "minimal" hash variant "hashes only
program+method+basis"; variants are pure functions of the calculation
descriptor and do not consult provenance fields.  Modelled as a
deterministic encoding of those three fields. -/
def minimalVariant (c : Calculation) : String :=
  "minimal:" ++ c.program ++ "|" ++ c.method ++ "|"
    ++ (match c.basis with
        | some b => "some " ++ b
        | none => "none")

/-- Modelled from the spec: the process-wide Hash Function Registry of
the `calcn` module (not under `src/`): a mapping from hash-variant name
to hash function.  The one built-in variant named by the spec and the
tests is "minimal". -/
def hash_registry : List (String × (Calculation → String)) :=
  [("minimal", minimalVariant)]

/-- Modelled from the spec: `hash_registry.available()` returns all
currently registered variant names (a set, so without duplicates). -/
def availableNames : List String :=
  (hash_registry.map Prod.fst).dedup

/-- Modelled from the spec: `calculation_hash(calculation, name)`
dispatches through the registry; an unregistered name fails with
`UnknownVariantError`, embedded as `none`. -/
def calculation_hash (c : Calculation) (name : String) :
    Option String :=
  (hash_registry.lookup name).map (fun f => f c)

/-- Embedded from `CalculationHashRow` (models.py lines 276-294): one
hash row per (calculation, variant name).  `calculation_id` is the
foreign key filled through the `calculation` relationship; `name` is the
variant name; `value` is the digest. -/
structure CalculationHashRow where
  id : Option Nat := none
  calculation_id : Option Nat := none
  name : String
  value : String
deriving Repr, DecidableEq

/-- Embedded from the column declarations of `CalculationHashRow`
(models.py lines 285-292): the table-level constraints are a unique
primary key `id` and `unique=True` on the `value` column — a single
uniqueness constraint over the whole column, with no variant-name
scope (`name` carries only an index).  `calculation_id` is
non-nullable. -/
def calculationHashTableOk (rows : List CalculationHashRow) : Prop :=
  rows.Pairwise (fun a b => a.id ≠ b.id ∧ a.value ≠ b.value)
    ∧ ∀ r ∈ rows, r.calculation_id.isSome

/-- Embedded from `CalculationRow` (models.py lines 127-206): input
fields, provenance fields, and the `hashes` relationship to the hash
rows owned by this calculation. -/
structure CalculationRow where
  id : Option Nat := none
  program : String
  method : String
  basis : Option String := none
  input : Option String := none
  keywords : List (String × KeyValue) := []
  cmdline_args : List String := []
  files : List (String × String) := []
  calctype : Option String := none
  program_version : Option String := none
  scratch_dir : Option String := none
  wall_time : Option Rat := none
  hostname : Option String := none
  hostcpus : Option Int := none
  hostmem : Option Int := none
  extras : List (String × KeyValue) := []
  hashes : List CalculationHashRow := []
deriving Repr

/-- Embedded from `CalculationRow.to_calculation` (models.py lines
208-226): reconstruct the `Calculation` descriptor from the row,
passing every field through. -/
def CalculationRow.to_calculation (self : CalculationRow) : Calculation :=
  { program := self.program
    method := self.method
    basis := self.basis
    input := self.input
    keywords := self.keywords
    cmdline_args := self.cmdline_args
    files := self.files
    calctype := self.calctype
    program_version := self.program_version
    scratch_dir := self.scratch_dir
    wall_time := self.wall_time
    hostname := self.hostname
    hostcpus := self.hostcpus
    hostmem := self.hostmem
    extras := self.extras }

/-- Embedded from `EnergyRow` (models.py lines 325-356): composite
primary key (geometry_id, calculation_id), both foreign keys, and the
energy value in Hartree. -/
structure EnergyRow where
  geometry_id : Option Nat := none
  calculation_id : Option Nat := none
  value : Rat
deriving Repr, DecidableEq

/-- A persisted database state: the four tables. -/
structure DBState where
  geometries : List GeometryRow := []
  calculations : List CalculationRow := []
  energies : List EnergyRow := []
  calculation_hashes : List CalculationHashRow := []

/-- Embedded from the `EnergyRow` column declarations (models.py lines
347-353): the composite primary key makes (geometry_id, calculation_id)
pairs unique and non-null, and each component references an existing
geometry/calculation row.  No uniqueness constraint exists on
`geometry_id` alone or on `calculation_id` alone. -/
def energyTableOk (db : DBState) : Prop :=
  db.energies.Pairwise (fun a b =>
      ¬ (a.geometry_id = b.geometry_id ∧ a.calculation_id = b.calculation_id))
    ∧ ∀ e ∈ db.energies,
        (∃ g ∈ db.geometries, g.id = e.geometry_id ∧ e.geometry_id ≠ none)
        ∧ ∃ c ∈ db.calculations, c.id = e.calculation_id ∧ e.calculation_id ≠ none

/-- A row pending in `session.new` at flush time: the
`isinstance(row, CalculationRow)` guard in the source skips every other
mapped class. -/
inductive SessionRow
  | calcRow : CalculationRow → SessionRow
  | geomRow : GeometryRow → SessionRow
  | hashRow : CalculationHashRow → SessionRow
  | energyRow : EnergyRow → SessionRow

/-- The per-row body of `populate_calculation_hashes` (models.py lines
302-322): take the names of the hash rows already on the calculation,
form the set difference `available - existing`; if nothing is missing,
continue without reconstructing the descriptor; otherwise reconstruct
the `Calculation` once, and for each missing name compute its hash and
attach a new `CalculationHashRow` referencing this calculation. -/
def populateRow (row : CalculationRow) : CalculationRow :=
  let existing := row.hashes.map CalculationHashRow.name
  let missing := availableNames.filter (fun n => decide (n ∉ existing))
  if missing.isEmpty then row
  else
    let c := row.to_calculation
    let added := missing.filterMap (fun name =>
      (calculation_hash c name).map (fun value =>
        { calculation_id := row.id, name := name, value := value
          : CalculationHashRow }))
    { row with hashes := row.hashes ++ added }

/-- Embedded from `populate_calculation_hashes` (models.py lines
297-322), the `after_flush` session listener: iterate over the newly
added rows, skip everything that is not a `CalculationRow`, and run the
population body on each calculation row. -/
def populate_calculation_hashes (sessionNew : List SessionRow) :
    List SessionRow :=
  sessionNew.map (fun r =>
    match r with
    | SessionRow.calcRow row => SessionRow.calcRow (populateRow row)
    | other => other)

/-- The external `qcio.Structure` carried by a `ProgramInput`: symbols,
coordinates, charge, multiplicity, as used by the repository write path
and its tests. -/
structure QcioStructure where
  symbols : List String
  geometry : List (List Rat)
  charge : Int := 0
  multiplicity : Int := 1
deriving Repr, DecidableEq

/-- The external `qcio.Model` (method and basis) of a `ProgramInput`. -/
structure QcioModel where
  method : String
  basis : Option String := none
deriving Repr

/-- The external `qcio.ProgramInput`: the one input-data kind the
repository supports in `from_results`. -/
structure ProgramInput where
  structure_ : QcioStructure
  model : QcioModel
  keywords : List (String × KeyValue) := []
  cmdline_args : List String := []
  files : List (String × String) := []
  calctype : Option String := none
  extras : List (String × KeyValue) := []
deriving Repr

/-- The `input_data` union of a `qcio.Results` object: either a
`ProgramInput`, or some other input-data kind (e.g. `FileInput`),
carried with its type name for the `NotImplementedError` message. -/
inductive InputData
  | programInput : ProgramInput → InputData
  | otherKind : String → InputData
deriving Repr

/-- The external `qcio.Provenance` fields read by
`CalculationRow.from_results`. -/
structure Provenance where
  program : String
  program_version : Option String := none
  scratch_dir : Option String := none
  wall_time : Option Rat := none
  hostname : Option String := none
  hostcpus : Option Int := none
  hostmem : Option Int := none
deriving Repr

/-- The external `qcio.Results` fields read by the two `from_results`
constructors. -/
structure Results where
  input_data : InputData
  provenance : Provenance
deriving Repr

/-- Whether the input data is a `ProgramInput` — the
`isinstance(res.input_data, ProgramInput)` test of the source. -/
def InputData.isProgramInput : InputData → Bool
  | InputData.programInput _ => true
  | InputData.otherKind _ => false

/-- Modelled from the spec: `qc.structure.geometry` (the `qc` module is
not under `src/`) is the domain normalization, outside the core, that
turns the external structure into a normalized geometry value (symbols,
coordinates, charge, spin).  Spin is `2S`, i.e. multiplicity minus
one. -/
def qcStructureGeometry (s : QcioStructure) : Geometry :=
  { symbols := s.symbols, coordinates := s.geometry,
    charge := s.charge, spin := s.multiplicity - 1 }

/-- Embedded from `GeometryRow.from_results` (models.py lines 60-89):
for a `ProgramInput`, normalize the structure and build the row; for
any other input-data kind, raise `NotImplementedError`. -/
def GeometryRow.from_results (res : Results) : Except String GeometryRow :=
  match res.input_data with
  | InputData.programInput pin =>
      let geo := qcStructureGeometry pin.structure_
      Except.ok { symbols := geo.symbols,
                  coordinates := geo.coordinates,
                  charge := geo.charge,
                  spin := geo.spin }
  | InputData.otherKind tyName =>
      Except.error ("Instantiation from " ++ tyName ++ " not yet implemented.")

/-- Embedded from `CalculationRow.from_results` (models.py lines
228-267): for a `ProgramInput`, build the row from the input data and
the provenance; for any other input-data kind, raise
`NotImplementedError`. -/
def CalculationRow.from_results (res : Results) :
    Except String CalculationRow :=
  match res.input_data with
  | InputData.programInput pin =>
      Except.ok { program := res.provenance.program,
                  method := pin.model.method,
                  basis := pin.model.basis,
                  input := none,
                  keywords := pin.keywords,
                  cmdline_args := pin.cmdline_args,
                  files := pin.files,
                  calctype := pin.calctype,
                  program_version := res.provenance.program_version,
                  scratch_dir := res.provenance.scratch_dir,
                  wall_time := res.provenance.wall_time,
                  hostname := res.provenance.hostname,
                  hostcpus := res.provenance.hostcpus,
                  hostmem := res.provenance.hostmem,
                  extras := pin.extras }
  | InputData.otherKind tyName =>
      Except.error ("Instantiation from " ++ tyName ++ " not yet implemented.")

/-- The content columns of a geometry row, as the canonical geometry
value the hash listener builds from them. -/
def geometryContent (row : GeometryRow) : Geometry :=
  { symbols := row.symbols, coordinates := row.coordinates,
    charge := row.charge, spin := row.spin }

theorem updateGeometry_hash (u : GeometryContentUpdate) (r : GeometryRow) :
    (updateGeometry u r).hash = r.hash := rfl

theorem foldl_updateGeometry_hash (us : List GeometryContentUpdate)
    (r : GeometryRow) :
    (us.foldl (fun r u => updateGeometry u r) r).hash = r.hash := by
  induction us generalizing r with
  | nil => rfl
  | cons u us ih => simpa [updateGeometry_hash] using ih (updateGeometry u r)

/-- C8: the before-insert hook unconditionally overwrites the row's hash
field with the digest of the row's own symbols, coordinates, charge and
spin, regardless of any hash value the caller may have pre-set, so at
insert time the stored hash is consistent with the stored content. -/
theorem c8_insert_hook_overwrites_hash (row : GeometryRow)
    (pre : Option String) :
    (populate_geometry_hash { row with hash := pre }).hash
      = some (geometry_hash (geometryContent row)) := rfl

/-- C7: the geometry content hash is computed at the moment the row is
inserted, and no later update to the persisted row recomputes or mutates
it: after any sequence of content updates the stored hash is still the
insert-time digest of the originally inserted content. -/
theorem c7_hash_computed_once_at_insert (row : GeometryRow)
    (us : List GeometryContentUpdate) :
    (insertGeometry row).hash = some (geometry_hash (geometryContent row))
      ∧ (us.foldl (fun r u => updateGeometry u r) (insertGeometry row)).hash
          = some (geometry_hash (geometryContent row)) := by
  refine ⟨rfl, ?_⟩
  rw [foldl_updateGeometry_hash]
  rfl

/-- C2: the code performs no shape validation — the coordinate-count
versus symbol-count validator is commented out in the source — so a
geometry with 3 symbols and 2 coordinate triples is accepted by
construction rather than rejected with `ShapeError`. -/
theorem c2_shape_mismatch_accepted :
    GeometryRow.construct ["O", "H", "H"] [[0, 0, 0], [1, 0, 0]] 0 0
      = Except.ok { symbols := ["O", "H", "H"],
                    coordinates := [[0, 0, 0], [1, 0, 0]] } := rfl

/-- C9: both `from_results` constructors succeed exactly when the input
data is a `ProgramInput`, and raise `NotImplementedError` (constructing
no row) for every other input-data kind. -/
theorem c9_from_results_program_input_only (res : Results) :
    (GeometryRow.from_results res).isOk = res.input_data.isProgramInput
      ∧ (CalculationRow.from_results res).isOk = res.input_data.isProgramInput := by
  cases res with
  | mk input_data provenance =>
    cases input_data with
    | programInput pin => exact ⟨rfl, rfl⟩
    | otherKind tyName => exact ⟨rfl, rfl⟩

/-- C10: `to_calculation` is field-preserving — the reconstructed
`Calculation` carries exactly the row's values for every one of the
fifteen descriptor fields, none altered, dropped or defaulted. -/
theorem c10_to_calculation_field_preserving (row : CalculationRow) :
    (row.to_calculation).program = row.program
      ∧ (row.to_calculation).method = row.method
      ∧ (row.to_calculation).basis = row.basis
      ∧ (row.to_calculation).input = row.input
      ∧ (row.to_calculation).keywords = row.keywords
      ∧ (row.to_calculation).cmdline_args = row.cmdline_args
      ∧ (row.to_calculation).files = row.files
      ∧ (row.to_calculation).calctype = row.calctype
      ∧ (row.to_calculation).program_version = row.program_version
      ∧ (row.to_calculation).scratch_dir = row.scratch_dir
      ∧ (row.to_calculation).wall_time = row.wall_time
      ∧ (row.to_calculation).hostname = row.hostname
      ∧ (row.to_calculation).hostcpus = row.hostcpus
      ∧ (row.to_calculation).hostmem = row.hostmem
      ∧ (row.to_calculation).extras = row.extras :=
  ⟨rfl, rfl, rfl, rfl, rfl, rfl, rfl, rfl, rfl, rfl, rfl, rfl, rfl, rfl, rfl⟩

/-- Two calculation descriptors agree on all identity-relevant fields
(everything except the provenance fields scratch_dir, wall_time,
hostname, hostcpus and hostmem). -/
def agreeOnIdentity (a b : Calculation) : Prop :=
  a.program = b.program ∧ a.method = b.method ∧ a.basis = b.basis
    ∧ a.input = b.input ∧ a.keywords = b.keywords
    ∧ a.cmdline_args = b.cmdline_args ∧ a.files = b.files
    ∧ a.calctype = b.calctype ∧ a.program_version = b.program_version
    ∧ a.extras = b.extras

/-- C3: every registered hash variant yields identical values on two
descriptors that agree on the identity-relevant fields and differ only
in provenance — calculation identity never depends on provenance. -/
theorem c3_hash_ignores_provenance (a b : Calculation)
    (hab : agreeOnIdentity a b) :
    ∀ name ∈ availableNames, calculation_hash a name = calculation_hash b name := by
  intro name hname
  have hmin : name = "minimal" := by
    simpa [availableNames, hash_registry] using hname
  subst hmin
  simp [calculation_hash, hash_registry, List.lookup, minimalVariant,
        hab.1, hab.2.1, hab.2.2.1]

/-- Descriptor used to witness provenance-independence: identity fields
only. -/
def calcSample : Calculation :=
  { program := "crest", method := "gfn2" }

/-- The same descriptor with different provenance (hostname, wall time,
scratch directory). -/
def calcSampleMoved : Calculation :=
  { program := "crest", method := "gfn2", scratch_dir := some "/tmp/b",
    wall_time := some 7, hostname := some "nodeB", hostcpus := some 64,
    hostmem := some 256 }

theorem c3_hash_ignores_provenance_witness :
    agreeOnIdentity calcSample calcSampleMoved
      ∧ calculation_hash calcSample "minimal"
          = calculation_hash calcSampleMoved "minimal" := by
  have hab : agreeOnIdentity calcSample calcSampleMoved :=
    ⟨rfl, rfl, rfl, rfl, rfl, rfl, rfl, rfl, rfl, rfl⟩
  exact ⟨hab, c3_hash_ignores_provenance calcSample calcSampleMoved hab
    "minimal" (by simp [availableNames, hash_registry])⟩

/-- C1: for a calculation newly added in a session with no hash rows
yet, after the flush-time population hook the variant names on its hash
rows are exactly `hash_registry.available()` — each name exactly once
(the name list is duplicate-free) — and each row's value is
`calculation_hash` of the reconstructed descriptor under that name. -/
theorem c1_population_completeness (row : CalculationRow)
    (hfresh : row.hashes = []) :
    (populateRow row).hashes.map CalculationHashRow.name = availableNames
      ∧ ((populateRow row).hashes.map CalculationHashRow.name).Nodup
      ∧ ∀ h ∈ (populateRow row).hashes,
          calculation_hash row.to_calculation h.name = some h.value := by
  refine ⟨?_, ?_, ?_⟩ <;>
    simp [populateRow, hfresh, availableNames, hash_registry,
          calculation_hash, List.lookup, List.filter, List.filterMap]

/-- Calculation row used to witness the population hook: freshly
created, no hash rows. -/
def freshCalcRow : CalculationRow :=
  { program := "crest", method := "gfn2" }

theorem c1_population_completeness_witness :
    freshCalcRow.hashes = []
      ∧ (populateRow freshCalcRow).hashes.map CalculationHashRow.name
          = availableNames :=
  ⟨rfl, (c1_population_completeness freshCalcRow rfl).1⟩

/-- C5: population is idempotent — on a calculation that already has a
hash row for every currently registered variant name, the hook adds no
new hash rows and recomputes nothing: the row is returned unchanged. -/
theorem c5_population_idempotent (row : CalculationRow)
    (hfull : ∀ n ∈ availableNames, n ∈ row.hashes.map CalculationHashRow.name) :
    populateRow row = row := by
  have hmiss :
      availableNames.filter
        (fun n => decide (n ∉ row.hashes.map CalculationHashRow.name)) = [] := by
    refine List.filter_eq_nil_iff.mpr ?_
    intro n hn
    simpa using hfull n hn
  simp only [populateRow]
  rw [hmiss]
  rfl

/-- Calculation row used to witness idempotence: one hash row per
registered variant name already present. -/
def fullCalcRow : CalculationRow :=
  { id := some 1, program := "crest", method := "gfn2",
    hashes := [{ id := some 1, calculation_id := some 1,
                 name := "minimal", value := "minimal:crest|gfn2|none" }] }

theorem c5_population_idempotent_witness :
    populateRow fullCalcRow = fullCalcRow :=
  c5_population_idempotent fullCalcRow (by
    intro n hn
    simp [availableNames, hash_registry] at hn
    simp [fullCalcRow, hn])

/-- A persisted hash row of the "minimal" variant. -/
def hashRowMinimalV : CalculationHashRow :=
  { id := some 1, calculation_id := some 1, name := "minimal", value := "abc" }

/-- A persisted hash row of a different variant carrying the same
value. -/
def hashRowStrictV : CalculationHashRow :=
  { id := some 2, calculation_id := some 2, name := "strict", value := "abc" }

/-- C4 counterexample: the uniqueness constraint on `value` is declared
on the whole column, not scoped to the variant name — two hash rows with
different variant names and the same value are rejected by the table
constraints, contrary to the claim that they may coexist. -/
theorem c4_cross_variant_share_rejected :
    hashRowMinimalV.name ≠ hashRowStrictV.name
      ∧ hashRowMinimalV.value = hashRowStrictV.value
      ∧ ¬ calculationHashTableOk [hashRowMinimalV, hashRowStrictV] := by
  refine ⟨by decide, rfl, ?_⟩
  intro hok
  have hrel := (List.pairwise_cons.mp hok.1).1 hashRowStrictV
    (List.mem_cons_self _ _)
  exact hrel.2 rfl

/-- C4 amended: the uniqueness constraint on a hash row's value is
global over the whole table — any two distinct persisted hash rows carry
distinct values, whether their variant names are equal or different; in
particular two rows of the same variant name never share a value for
distinct calculations. -/
theorem c4_value_unique_globally (rows : List CalculationHashRow)
    (hok : calculationHashTableOk rows) (i j : Fin rows.length)
    (hij : i ≠ j) :
    (rows.get i).value ≠ (rows.get j).value := by
  have hp := List.pairwise_iff_get.mp hok.1
  rcases lt_or_gt_of_ne hij with h | h
  · exact (hp i j h).2
  · exact fun e => (hp j i h).2 e.symm

/-- Valid pair of persisted hash rows with distinct values. -/
def hashRowValA : CalculationHashRow :=
  { id := some 1, calculation_id := some 1, name := "minimal", value := "aaa" }

/-- Second valid persisted hash row, different variant, distinct
value. -/
def hashRowValB : CalculationHashRow :=
  { id := some 2, calculation_id := some 1, name := "strict", value := "bbb" }

theorem c4_value_unique_globally_witness :
    calculationHashTableOk [hashRowValA, hashRowValB]
      ∧ ([hashRowValA, hashRowValB].get ⟨0, by decide⟩).value
          ≠ ([hashRowValA, hashRowValB].get ⟨1, by decide⟩).value := by
  have hok : calculationHashTableOk [hashRowValA, hashRowValB] := by
    constructor
    · decide
    · decide
  exact ⟨hok, c4_value_unique_globally [hashRowValA, hashRowValB] hok
    ⟨0, by decide⟩ ⟨1, by decide⟩ (by decide)⟩

/-- Persisted geometry row used in the shared-energy database state. -/
def geoRowA : GeometryRow :=
  { id := some 1, symbols := ["O", "H", "H"],
    coordinates := [[0, 0, 0], [1, 0, 0], [0, 1, 0]], hash := some "hA" }

/-- Second persisted geometry row in the shared-energy database
state. -/
def geoRowB : GeometryRow :=
  { id := some 2, symbols := ["O"], coordinates := [[0, 0, 0]],
    hash := some "hB" }

/-- Persisted calculation row used in the shared-energy database
state. -/
def calcRowA : CalculationRow :=
  { id := some 1, program := "crest", method := "gfn2" }

/-- Second persisted calculation row in the shared-energy database
state. -/
def calcRowB : CalculationRow :=
  { id := some 2, program := "orca", method := "b3lyp" }

/-- Energy of calculation A on geometry A. -/
def energyAA : EnergyRow :=
  { geometry_id := some 1, calculation_id := some 1, value := -5 }

/-- Energy of calculation B on geometry A: shares its geometry with
`energyAA`. -/
def energyAB : EnergyRow :=
  { geometry_id := some 1, calculation_id := some 2, value := -6 }

/-- Energy of calculation A on geometry B: shares its calculation with
`energyAA`. -/
def energyBA : EnergyRow :=
  { geometry_id := some 2, calculation_id := some 1, value := -7 }

/-- A database state in which one geometry is shared by two energies
and one calculation is shared by two energies. -/
def sharedEnergyDB : DBState :=
  { geometries := [geoRowA, geoRowB],
    calculations := [calcRowA, calcRowB],
    energies := [energyAA, energyAB, energyBA] }

/-- C6: energy records reference but do not own their geometry and
calculation — the schema of the energy table (composite primary key,
plain foreign keys, no uniqueness on either component alone) admits a
state in which two energies share one geometry and two energies share
one calculation. -/
theorem c6_energies_share_geometry_and_calculation :
    energyTableOk sharedEnergyDB
      ∧ energyAA.geometry_id = energyAB.geometry_id
      ∧ energyAA.calculation_id ≠ energyAB.calculation_id
      ∧ energyAA.calculation_id = energyBA.calculation_id
      ∧ energyAA.geometry_id ≠ energyBA.geometry_id := by
  refine ⟨⟨?_, ?_⟩, rfl, by decide, rfl, by decide⟩
  · decide
  · intro e he
    simp only [sharedEnergyDB, List.mem_cons, List.not_mem_nil, or_false]
      at he
    rcases he with rfl | rfl | rfl
    · exact ⟨⟨geoRowA, by simp [sharedEnergyDB], rfl, by decide⟩,
             ⟨calcRowA, by simp [sharedEnergyDB], rfl, by decide⟩⟩
    · exact ⟨⟨geoRowA, by simp [sharedEnergyDB], rfl, by decide⟩,
             ⟨calcRowB, by simp [sharedEnergyDB], rfl, by decide⟩⟩
    · exact ⟨⟨geoRowB, by simp [sharedEnergyDB], rfl, by decide⟩,
             ⟨calcRowA, by simp [sharedEnergyDB], rfl, by decide⟩⟩
